import Mathlib

/-
  Shallow embedding of src/bluedevildevice.cpp (libbluedevil, BlueDevil::Device).

  The Device class wraps a remote BlueZ device object reachable over D-Bus.
  We model:
    - Value        : the QVariant-like values flowing over the bus;
    - Env          : the daemon's replies (findDevice / createDevice paths,
                     the GetProperties table, the DiscoverServices reply);
    - Device       : the fields of Device::Private;
    - RemoteCall   : the trace of remote D-Bus calls an operation performs;
    - Signal       : the local Qt signals the Device emits.
  Every member function of Device is translated as a function from Env and
  Device to its return value, the successor Device state and the list of
  remote calls it performed (in order).  The property-change slot
  _k_propertyChanged is a function from Device, property name and value to
  the successor state and the list of emitted local signals.
-/

namespace BlueDevil

/-- QVariant as used by this file: booleans, strings, lists, or anything
else (invalid / unhandled), with Qt's conversion semantics for the three
conversions the source performs (toBool, toString, toList). -/
inductive Value where
  | vBool (b : Bool)
  | vString (s : String)
  | vList (l : List Value)
  | vNull

/-- QVariant::toBool: a bool converts to itself, the strings "true" and "1"
convert to true, anything else to false. -/
def Value.toBool : Value → Bool
  | .vBool b => b
  | .vString s => s == "true" || s == "1"
  | _ => false

/-- QVariant::toString restricted to the value kinds we model. -/
def Value.toQString : Value → String
  | .vString s => s
  | .vBool b => if b then "true" else "false"
  | _ => ""

/-- QVariant::toList: a list converts to itself, anything else to the empty
list. -/
def Value.toList : Value → List Value
  | .vList l => l
  | _ => []

/-- QVariantMap lookup (operator[] on a const map): the stored value, or an
invalid QVariant when the key is absent. -/
def qmapLookup (m : List (String × Value)) (k : String) : Value :=
  match m.find? (fun p => p.1 == k) with
  | some p => p.2
  | none => .vNull

/-- The remote daemon side: what the adapter's findDevice and createDevice
return (the empty string stands for an empty QDBusObjectPath, i.e. failure),
the property table GetProperties replies with, and the map DiscoverServices
replies with. -/
structure Env where
  findDevicePath : String
  createDevicePath : String
  properties : List (String × Value)
  discoverReply : List (Nat × String)

/-- A remote D-Bus call performed by a Device operation. -/
inductive RemoteCall where
  | findDevice (address : String)
  | createDevice (address : String)
  | getProperties
  | setProperty (name : String) (value : Value)
  | discoverServices (pattern : String)
  | cancelDiscovery
  | disconnectCall

/-- A local Qt signal emitted by the Device. -/
inductive Signal where
  | pairedChanged (paired : Bool)
  | connectedChanged (connected : Bool)
  | trustedChanged (trusted : Bool)
  | blockedChanged (blocked : Bool)
  | aliasChanged (a : String)
  | disconnectRequested
  deriving DecidableEq, Repr

/-- The fields of Device::Private.  m_bluezDeviceInterface is the object
path of the created remote interface, none while the interface has not been
created (the null pointer).  m_adapter is an abstract handle to the owning
Adapter. -/
structure Device where
  m_bluezDeviceInterface : Option String
  m_adapter : Nat
  m_address : String
  m_name : String
  m_icon : String
  m_deviceClass : Nat
  m_UUIDs : List String
  m_paired : Bool
  m_connected : Bool
  m_trusted : Bool
  m_blocked : Bool
  m_alias : String
  m_legacyPairing : Bool
  m_propertiesFetched : Bool
  deriving DecidableEq, Repr

/-- Device::Device / Device::Private::Private: the constructor stores the
seven constructor arguments and the adapter, and initialises the interface
pointer to null, connected / trusted / blocked to false, the UUID list to
empty and m_propertiesFetched to false. -/
def Device.init (address aliasArg : String) (deviceClass : Nat) (icon : String)
    (legacyPairing : Bool) (name : String) (paired : Bool) (adapter : Nat) : Device :=
  { m_bluezDeviceInterface := none
    m_adapter := adapter
    m_address := address
    m_name := name
    m_icon := icon
    m_deviceClass := deviceClass
    m_UUIDs := []
    m_paired := paired
    m_connected := false
    m_trusted := false
    m_blocked := false
    m_alias := aliasArg
    m_legacyPairing := legacyPairing
    m_propertiesFetched := false }

/-- Device::Private::ensureDeviceCreated: if the interface exists, succeed
with no remote call; otherwise ask the adapter to find the device by
address, on an empty path ask it to create the device, on a still empty
path fail; on a non-empty path store the new interface and succeed. -/
def Device.ensureDeviceCreated (env : Env) (d : Device) :
    Bool × Device × List RemoteCall :=
  if d.m_bluezDeviceInterface.isSome then
    (true, d, [])
  else if env.findDevicePath ≠ "" then
    (true, { d with m_bluezDeviceInterface := some env.findDevicePath },
     [.findDevice d.m_address])
  else if env.createDevicePath ≠ "" then
    (true, { d with m_bluezDeviceInterface := some env.createDevicePath },
     [.findDevice d.m_address, .createDevice d.m_address])
  else
    (false, d, [.findDevice d.m_address, .createDevice d.m_address])

/-- Device::Private::fetchProperties: return early if the device cannot be
created; otherwise call GetProperties, store the Connected / Trusted /
Blocked entries, append the stringified UUIDs entry to m_UUIDs and set
m_propertiesFetched. -/
def Device.fetchProperties (env : Env) (d : Device) : Device × List RemoteCall :=
  let r := d.ensureDeviceCreated env
  if r.1 = false then
    (r.2.1, r.2.2)
  else
    ({ r.2.1 with
        m_connected := (qmapLookup env.properties "Connected").toBool
        m_trusted := (qmapLookup env.properties "Trusted").toBool
        m_blocked := (qmapLookup env.properties "Blocked").toBool
        m_UUIDs := r.2.1.m_UUIDs
          ++ ((qmapLookup env.properties "UUIDs").toList.map Value.toQString)
        m_propertiesFetched := true },
     r.2.2 ++ [.getProperties])

/-- Device::Private::_k_propertyChanged: on one of the five recognised
property names, store the converted value and emit the matching changed
signal with that value; otherwise do nothing. -/
def Device.propertyChanged (d : Device) (property : String) (value : Value) :
    Device × List Signal :=
  if property = "Paired" then
    ({ d with m_paired := value.toBool }, [.pairedChanged value.toBool])
  else if property = "Connected" then
    ({ d with m_connected := value.toBool }, [.connectedChanged value.toBool])
  else if property = "Trusted" then
    ({ d with m_trusted := value.toBool }, [.trustedChanged value.toBool])
  else if property = "Blocked" then
    ({ d with m_blocked := value.toBool }, [.blockedChanged value.toBool])
  else if property = "Alias" then
    ({ d with m_alias := value.toQString }, [.aliasChanged value.toQString])
  else
    (d, [])

/-- Device::registerDevice: just ensureDeviceCreated, reporting its result. -/
def Device.registerDevice (env : Env) (d : Device) : Bool × Device × List RemoteCall :=
  d.ensureDeviceCreated env

/-- Device::address: plain cached read. -/
def Device.address (d : Device) : String × Device × List RemoteCall :=
  (d.m_address, d, [])

/-- Device::name: plain cached read. -/
def Device.name (d : Device) : String × Device × List RemoteCall :=
  (d.m_name, d, [])

/-- Device::icon: plain cached read. -/
def Device.icon (d : Device) : String × Device × List RemoteCall :=
  (d.m_icon, d, [])

/-- Device::deviceClass: plain cached read. -/
def Device.deviceClass (d : Device) : Nat × Device × List RemoteCall :=
  (d.m_deviceClass, d, [])

/-- Device::UUIDs: ENSURE_PROPERTIES_FETCHED, then return m_UUIDs. -/
def Device.UUIDs (env : Env) (d : Device) : List String × Device × List RemoteCall :=
  if d.m_propertiesFetched then
    (d.m_UUIDs, d, [])
  else
    let r := d.fetchProperties env
    (r.1.m_UUIDs, r.1, r.2)

/-- Device::isPaired: plain cached read. -/
def Device.isPaired (d : Device) : Bool × Device × List RemoteCall :=
  (d.m_paired, d, [])

/-- Device::isConnected: ENSURE_PROPERTIES_FETCHED, then return m_connected. -/
def Device.isConnected (env : Env) (d : Device) : Bool × Device × List RemoteCall :=
  if d.m_propertiesFetched then
    (d.m_connected, d, [])
  else
    let r := d.fetchProperties env
    (r.1.m_connected, r.1, r.2)

/-- Device::isTrusted: ENSURE_PROPERTIES_FETCHED, then return m_trusted. -/
def Device.isTrusted (env : Env) (d : Device) : Bool × Device × List RemoteCall :=
  if d.m_propertiesFetched then
    (d.m_trusted, d, [])
  else
    let r := d.fetchProperties env
    (r.1.m_trusted, r.1, r.2)

/-- Device::setTrusted: return if the device cannot be created, otherwise
forward SetProperty("Trusted", trusted) to the daemon; the cache is not
touched. -/
def Device.setTrusted (env : Env) (d : Device) (trusted : Bool) :
    Device × List RemoteCall :=
  let r := d.ensureDeviceCreated env
  if r.1 = false then
    (r.2.1, r.2.2)
  else
    (r.2.1, r.2.2 ++ [.setProperty "Trusted" (.vBool trusted)])

/-- Device::isBlocked: ENSURE_PROPERTIES_FETCHED, then return m_blocked. -/
def Device.isBlocked (env : Env) (d : Device) : Bool × Device × List RemoteCall :=
  if d.m_propertiesFetched then
    (d.m_blocked, d, [])
  else
    let r := d.fetchProperties env
    (r.1.m_blocked, r.1, r.2)

/-- Device::setBlocked: return if the device cannot be created, otherwise
forward SetProperty("Blocked", blocked) to the daemon; the cache is not
touched. -/
def Device.setBlocked (env : Env) (d : Device) (blocked : Bool) :
    Device × List RemoteCall :=
  let r := d.ensureDeviceCreated env
  if r.1 = false then
    (r.2.1, r.2.2)
  else
    (r.2.1, r.2.2 ++ [.setProperty "Blocked" (.vBool blocked)])

/-- Device::alias: plain cached read. -/
def Device.aliasName (d : Device) : String × Device × List RemoteCall :=
  (d.m_alias, d, [])

/-- Device::setAlias: return if the device cannot be created, otherwise
forward SetProperty("Alias", alias) to the daemon; the cache is not
touched. -/
def Device.setAlias (env : Env) (d : Device) (aliasArg : String) :
    Device × List RemoteCall :=
  let r := d.ensureDeviceCreated env
  if r.1 = false then
    (r.2.1, r.2.2)
  else
    (r.2.1, r.2.2 ++ [.setProperty "Alias" (.vString aliasArg)])

/-- Device::adapter: plain cached read of the adapter handle. -/
def Device.adapter (d : Device) : Nat × Device × List RemoteCall :=
  (d.m_adapter, d, [])

/-- Device::hasLegacyPairing: plain cached read. -/
def Device.hasLegacyPairing (d : Device) : Bool × Device × List RemoteCall :=
  (d.m_legacyPairing, d, [])

/-- Device::discoverServices: the empty map if the device cannot be
created, otherwise the daemon's DiscoverServices reply. -/
def Device.discoverServices (env : Env) (d : Device) (pattern : String) :
    List (Nat × String) × Device × List RemoteCall :=
  let r := d.ensureDeviceCreated env
  if r.1 = false then
    ([], r.2.1, r.2.2)
  else
    (env.discoverReply, r.2.1, r.2.2 ++ [.discoverServices pattern])

/-- Device::cancelDiscovery: forward CancelDiscovery only when the
interface already exists; otherwise do nothing at all. -/
def Device.cancelDiscovery (d : Device) : Device × List RemoteCall :=
  if d.m_bluezDeviceInterface.isSome then
    (d, [.cancelDiscovery])
  else
    (d, [])

/-- Device::disconnect: forward Disconnect only when the interface already
exists; otherwise do nothing at all. -/
def Device.disconnectDevice (d : Device) : Device × List RemoteCall :=
  if d.m_bluezDeviceInterface.isSome then
    (d, [.disconnectCall])
  else
    (d, [])

/-- The locally cached BlueZ properties of a Device (the fields under the
"Bluez cached properties" comment of Device::Private, minus the
m_propertiesFetched bookkeeping flag). -/
structure CachedProps where
  address : String
  name : String
  icon : String
  deviceClass : Nat
  uuids : List String
  paired : Bool
  connected : Bool
  trusted : Bool
  blocked : Bool
  aliasName : String
  legacyPairing : Bool
  deriving DecidableEq, Repr

/-- Projection of a Device onto its cached properties. -/
def Device.cachedProps (d : Device) : CachedProps :=
  { address := d.m_address
    name := d.m_name
    icon := d.m_icon
    deviceClass := d.m_deviceClass
    uuids := d.m_UUIDs
    paired := d.m_paired
    connected := d.m_connected
    trusted := d.m_trusted
    blocked := d.m_blocked
    aliasName := d.m_alias
    legacyPairing := d.m_legacyPairing }

/-- The names of the cached property fields of Device::Private, read off
the source (lines 47-58 of src/bluedevildevice.cpp). -/
def deviceCachedFields : List String :=
  ["m_address", "m_name", "m_icon", "m_deviceClass", "m_UUIDs", "m_paired",
   "m_connected", "m_trusted", "m_blocked", "m_alias", "m_legacyPairing"]

/-- Modelled from the spec: the spec's data-model sentence says the cache
holds "a few scalar properties (address, name, trust/block/pair flags,
RSSI)", i.e. these field names and no others. -/
def specClaimedCachedFields : List String :=
  ["m_address", "m_name", "m_trusted", "m_blocked", "m_paired", "m_rssi"]

/-- A sample daemon for concrete runs: findDevice succeeds directly. -/
def sampleEnv : Env :=
  { findDevicePath := "/org/bluez/hci0/dev_AA_BB_CC_DD_EE_FF"
    createDevicePath := ""
    properties :=
      [("Connected", .vBool true), ("Trusted", .vBool false),
       ("Blocked", .vBool true),
       ("UUIDs", .vList [.vString "uuidA", .vString "uuidB"])]
    discoverReply := [(4, "serviceRecord")] }

/-- A sample daemon on which the device can be neither found nor created. -/
def failEnv : Env :=
  { findDevicePath := ""
    createDevicePath := ""
    properties := []
    discoverReply := [] }

/-- A freshly constructed sample Device. -/
def sampleDevice : Device :=
  Device.init "AA:BB:CC:DD:EE:FF" "MyPhone" 1048 "phone" false "Phone" false 0

/-
  Helper lemmas: ensureDeviceCreated touches nothing but the interface
  pointer, and on failure it is the identity.
-/

theorem ensure_cachedProps (env : Env) (d : Device) :
    ((d.ensureDeviceCreated env).2.1).cachedProps = d.cachedProps := by
  unfold Device.ensureDeviceCreated
  split_ifs <;> rfl

theorem ensure_m_UUIDs (env : Env) (d : Device) :
    ((d.ensureDeviceCreated env).2.1).m_UUIDs = d.m_UUIDs := by
  unfold Device.ensureDeviceCreated
  split_ifs <;> rfl

theorem ensure_m_fetched (env : Env) (d : Device) :
    ((d.ensureDeviceCreated env).2.1).m_propertiesFetched = d.m_propertiesFetched := by
  unfold Device.ensureDeviceCreated
  split_ifs <;> rfl

theorem ensure_fail_id (env : Env) (d : Device)
    (h : (d.ensureDeviceCreated env).1 = false) : (d.ensureDeviceCreated env).2.1 = d := by
  unfold Device.ensureDeviceCreated at h ⊢
  split_ifs at h ⊢
  all_goals simp_all

theorem ensure_none_fail (env : Env) (d : Device)
    (hN : d.m_bluezDeviceInterface = none)
    (hF : env.findDevicePath = "") (hC : env.createDevicePath = "") :
    d.ensureDeviceCreated env
      = (false, d, [.findDevice d.m_address, .createDevice d.m_address]) := by
  unfold Device.ensureDeviceCreated
  simp [hN, hF, hC]

theorem ensure_none_finds (env : Env) (d : Device)
    (hN : d.m_bluezDeviceInterface = none) :
    RemoteCall.findDevice d.m_address ∈ (d.ensureDeviceCreated env).2.2 := by
  unfold Device.ensureDeviceCreated
  simp only [hN, Option.isSome_none, Bool.false_eq_true, if_false]
  split_ifs
  all_goals simp

theorem fetch_success (env : Env) (d : Device)
    (hc : (d.ensureDeviceCreated env).1 = true) :
    d.fetchProperties env =
      ({ (d.ensureDeviceCreated env).2.1 with
          m_connected := (qmapLookup env.properties "Connected").toBool
          m_trusted := (qmapLookup env.properties "Trusted").toBool
          m_blocked := (qmapLookup env.properties "Blocked").toBool
          m_UUIDs := d.m_UUIDs
            ++ ((qmapLookup env.properties "UUIDs").toList.map Value.toQString)
          m_propertiesFetched := true },
       (d.ensureDeviceCreated env).2.2 ++ [.getProperties]) := by
  unfold Device.fetchProperties
  simp [hc, ensure_m_UUIDs]

/-- C1: the first call to UUIDs / isConnected / isTrusted / isBlocked while
m_propertiesFetched is false runs fetchProperties; a successful fetch calls
GetProperties, stores the daemon's Connected / Trusted / Blocked entries
and UUID list, and sets m_propertiesFetched; afterwards each of the four
accessors returns the cached value, changes nothing and performs no remote
call, whatever the daemon would now answer. -/
theorem c1_lazy_property_fetch (env env2 : Env) (d : Device)
    (hf : d.m_propertiesFetched = false) (hU : d.m_UUIDs = [])
    (hc : (d.ensureDeviceCreated env).1 = true) :
    (d.UUIDs env
        = ((d.fetchProperties env).1.m_UUIDs, (d.fetchProperties env).1,
           (d.fetchProperties env).2)
      ∧ d.isConnected env
        = ((d.fetchProperties env).1.m_connected, (d.fetchProperties env).1,
           (d.fetchProperties env).2)
      ∧ d.isTrusted env
        = ((d.fetchProperties env).1.m_trusted, (d.fetchProperties env).1,
           (d.fetchProperties env).2)
      ∧ d.isBlocked env
        = ((d.fetchProperties env).1.m_blocked, (d.fetchProperties env).1,
           (d.fetchProperties env).2))
    ∧ (RemoteCall.getProperties ∈ (d.fetchProperties env).2
      ∧ (d.fetchProperties env).1.m_connected
          = (qmapLookup env.properties "Connected").toBool
      ∧ (d.fetchProperties env).1.m_trusted
          = (qmapLookup env.properties "Trusted").toBool
      ∧ (d.fetchProperties env).1.m_blocked
          = (qmapLookup env.properties "Blocked").toBool
      ∧ (d.fetchProperties env).1.m_UUIDs
          = (qmapLookup env.properties "UUIDs").toList.map Value.toQString
      ∧ (d.fetchProperties env).1.m_propertiesFetched = true)
    ∧ ((d.fetchProperties env).1.UUIDs env2
        = ((d.fetchProperties env).1.m_UUIDs, (d.fetchProperties env).1, [])
      ∧ (d.fetchProperties env).1.isConnected env2
        = ((d.fetchProperties env).1.m_connected, (d.fetchProperties env).1, [])
      ∧ (d.fetchProperties env).1.isTrusted env2
        = ((d.fetchProperties env).1.m_trusted, (d.fetchProperties env).1, [])
      ∧ (d.fetchProperties env).1.isBlocked env2
        = ((d.fetchProperties env).1.m_blocked, (d.fetchProperties env).1, [])) := by
  have hfs := fetch_success env d hc
  have hfetched : (d.fetchProperties env).1.m_propertiesFetched = true := by
    rw [hfs]
  refine ⟨⟨?_, ?_, ?_, ?_⟩, ⟨?_, ?_, ?_, ?_, ?_, ?_⟩, ⟨?_, ?_, ?_, ?_⟩⟩ <;>
    simp [Device.UUIDs, Device.isConnected, Device.isTrusted, Device.isBlocked,
      hf, hfetched, hfs, hU]

/-- C1 witness: on the sample device and daemon the hypotheses hold, the
fetch marks the properties fetched and stores the daemon's values, and a
later accessor call is a pure cached read. -/
theorem c1_lazy_property_fetch_witness :
    sampleDevice.m_propertiesFetched = false
    ∧ (sampleDevice.ensureDeviceCreated sampleEnv).1 = true
    ∧ (sampleDevice.fetchProperties sampleEnv).1.m_propertiesFetched = true
    ∧ (sampleDevice.fetchProperties sampleEnv).1.m_connected = true
    ∧ (sampleDevice.fetchProperties sampleEnv).1.m_UUIDs = ["uuidA", "uuidB"]
    ∧ (sampleDevice.fetchProperties sampleEnv).1.isConnected failEnv
        = ((sampleDevice.fetchProperties sampleEnv).1.m_connected,
           (sampleDevice.fetchProperties sampleEnv).1, []) := by
  have h := c1_lazy_property_fetch sampleEnv failEnv sampleDevice rfl rfl rfl
  exact ⟨rfl, rfl, h.2.1.2.2.2.2.2, h.2.1.2.1.trans rfl,
    h.2.1.2.2.2.2.1.trans rfl, h.2.2.2.1⟩

/-- C2: for each of the five recognised property names, a daemon
property-change notification stores the delivered value in the matching
cached field and emits exactly the matching local changed signal carrying
that same value. -/
theorem c2_property_change_updates_and_reemits (d : Device) (v : Value) :
    d.propertyChanged "Paired" v
      = ({ d with m_paired := v.toBool }, [.pairedChanged v.toBool])
    ∧ d.propertyChanged "Connected" v
      = ({ d with m_connected := v.toBool }, [.connectedChanged v.toBool])
    ∧ d.propertyChanged "Trusted" v
      = ({ d with m_trusted := v.toBool }, [.trustedChanged v.toBool])
    ∧ d.propertyChanged "Blocked" v
      = ({ d with m_blocked := v.toBool }, [.blockedChanged v.toBool])
    ∧ d.propertyChanged "Alias" v
      = ({ d with m_alias := v.toQString }, [.aliasChanged v.toQString]) := by
  refine ⟨?_, ?_, ?_, ?_, ?_⟩ <;> simp [Device.propertyChanged]

/-- C3: when the remote device object can be neither found nor created,
discoverServices returns the empty map and registerDevice returns false,
in both cases leaving the Device unchanged after the two failed creation
attempts. -/
theorem c3_failure_surfaces_empty (env : Env) (d : Device) (pattern : String)
    (hN : d.m_bluezDeviceInterface = none)
    (hF : env.findDevicePath = "") (hC : env.createDevicePath = "") :
    d.discoverServices env pattern
      = ([], d, [.findDevice d.m_address, .createDevice d.m_address])
    ∧ d.registerDevice env
      = (false, d, [.findDevice d.m_address, .createDevice d.m_address]) := by
  have hE := ensure_none_fail env d hN hF hC
  constructor <;> simp [Device.discoverServices, Device.registerDevice, hE]

/-- C3 witness: concrete failing daemon, concrete fresh device. -/
theorem c3_failure_surfaces_empty_witness :
    sampleDevice.discoverServices failEnv ""
      = ([], sampleDevice,
         [.findDevice sampleDevice.m_address, .createDevice sampleDevice.m_address])
    ∧ sampleDevice.registerDevice failEnv
      = (false, sampleDevice,
         [.findDevice sampleDevice.m_address, .createDevice sampleDevice.m_address]) :=
  c3_failure_surfaces_empty failEnv sampleDevice "" rfl rfl rfl

/-- C4: when the remote device object can be neither found nor created,
setTrusted, setBlocked and setAlias return after the two failed creation
attempts, without retrying and without sending SetProperty, and the Device
(in particular every cached property) is left exactly as it was. -/
theorem c4_mutation_failure_leaves_state (env : Env) (d : Device)
    (v b : Bool) (a : String)
    (hN : d.m_bluezDeviceInterface = none)
    (hF : env.findDevicePath = "") (hC : env.createDevicePath = "") :
    d.setTrusted env v
      = (d, [.findDevice d.m_address, .createDevice d.m_address])
    ∧ d.setBlocked env b
      = (d, [.findDevice d.m_address, .createDevice d.m_address])
    ∧ d.setAlias env a
      = (d, [.findDevice d.m_address, .createDevice d.m_address]) := by
  have hE := ensure_none_fail env d hN hF hC
  refine ⟨?_, ?_, ?_⟩ <;>
    simp [Device.setTrusted, Device.setBlocked, Device.setAlias, hE]

/-- C4 witness: concrete failing daemon, concrete fresh device. -/
theorem c4_mutation_failure_leaves_state_witness :
    sampleDevice.setTrusted failEnv true
      = (sampleDevice,
         [.findDevice sampleDevice.m_address, .createDevice sampleDevice.m_address])
    ∧ sampleDevice.setBlocked failEnv true
      = (sampleDevice,
         [.findDevice sampleDevice.m_address, .createDevice sampleDevice.m_address])
    ∧ sampleDevice.setAlias failEnv "x"
      = (sampleDevice,
         [.findDevice sampleDevice.m_address, .createDevice sampleDevice.m_address]) :=
  c4_mutation_failure_leaves_state failEnv sampleDevice true true "x" rfl rfl rfl

/-- C6: address, name, icon, deviceClass, alias, isPaired,
hasLegacyPairing and adapter are pure cached reads: each returns the
corresponding cached field, leaves the Device unchanged and performs no
remote call. -/
theorem c6_pure_cached_reads (d : Device) :
    d.address = (d.m_address, d, [])
    ∧ d.name = (d.m_name, d, [])
    ∧ d.icon = (d.m_icon, d, [])
    ∧ d.deviceClass = (d.m_deviceClass, d, [])
    ∧ d.aliasName = (d.m_alias, d, [])
    ∧ d.isPaired = (d.m_paired, d, [])
    ∧ d.hasLegacyPairing = (d.m_legacyPairing, d, [])
    ∧ d.adapter = (d.m_adapter, d, []) :=
  ⟨rfl, rfl, rfl, rfl, rfl, rfl, rfl, rfl⟩

/-- C10: a property-change notification whose name is none of Paired,
Connected, Trusted, Blocked, Alias leaves the Device unchanged and emits
no signal. -/
theorem c10_unknown_property_ignored (d : Device) (property : String) (v : Value)
    (h : property ∉ (["Paired", "Connected", "Trusted", "Blocked", "Alias"] : List String)) :
    d.propertyChanged property v = (d, []) := by
  simp only [List.mem_cons, List.not_mem_nil, or_false, not_or] at h
  obtain ⟨h1, h2, h3, h4, h5⟩ := h
  simp [Device.propertyChanged, h1, h2, h3, h4, h5]

/-- C10 witness: an RSSI change notification is ignored. -/
theorem c10_unknown_property_ignored_witness :
    sampleDevice.propertyChanged "RSSI" (.vBool true) = (sampleDevice, []) :=
  c10_unknown_property_ignored sampleDevice "RSSI" (.vBool true) (by decide)

/-- C5 counterexample: the cached fields of Device::Private are not the
ones the spec lists — the source has a UUID list and an icon (among
others) which the spec omits, and no RSSI field, which the spec lists. -/
theorem c5_cache_fields_counterexample :
    ("m_UUIDs" ∈ deviceCachedFields ∧ "m_UUIDs" ∉ specClaimedCachedFields)
    ∧ ("m_icon" ∈ deviceCachedFields ∧ "m_icon" ∉ specClaimedCachedFields)
    ∧ ("m_rssi" ∈ specClaimedCachedFields ∧ "m_rssi" ∉ deviceCachedFields) := by
  decide

/-- C5 amended: the Device-side cache holds the address, name, icon,
device class and alias strings, the paired / connected / trusted /
blocked / legacy-pairing flags and the UUID string list (and no RSSI);
together with the interface pointer, the adapter handle and the fetched
flag these determine the whole Device, so there is no further field and no
invariant beyond possible staleness. -/
theorem c5_cache_fields_amended (a b : Device)
    (hI : a.m_bluezDeviceInterface = b.m_bluezDeviceInterface)
    (hA : a.m_adapter = b.m_adapter)
    (hP : a.m_propertiesFetched = b.m_propertiesFetched)
    (hC : a.cachedProps = b.cachedProps) :
    a = b := by
  cases a
  cases b
  simp only [Device.cachedProps, CachedProps.mk.injEq] at hC
  simp_all

/-- C5 witness: two syntactically different spellings of the sample device
agree on the interface pointer, adapter handle, fetched flag and cached
properties, hence are equal. -/
theorem c5_cache_fields_amended_witness :
    sampleDevice
      = Device.init "AA:BB:CC:DD:EE:FF" "MyPhone" 1048 "phone" false "Phone" false 0 :=
  c5_cache_fields_amended sampleDevice
    (Device.init "AA:BB:CC:DD:EE:FF" "MyPhone" 1048 "phone" false "Phone" false 0)
    rfl rfl rfl rfl

/-- C7: the three setters never write the cached properties — each leaves
every cached field as it was, and its remote-call trace is the interface
creation followed, exactly on success, by the single SetProperty call
carrying the new value; the cached field itself changes (to the delivered
value) only in the property-change slot. -/
theorem c7_setters_only_forward (env : Env) (d : Device)
    (v b : Bool) (a : String) (w : Value) :
    ((d.setTrusted env v).1.cachedProps = d.cachedProps
      ∧ (d.setBlocked env b).1.cachedProps = d.cachedProps
      ∧ (d.setAlias env a).1.cachedProps = d.cachedProps)
    ∧ ((d.setTrusted env v).2
        = (d.ensureDeviceCreated env).2.2
          ++ (if (d.ensureDeviceCreated env).1
              then [RemoteCall.setProperty "Trusted" (.vBool v)] else [])
      ∧ (d.setBlocked env b).2
        = (d.ensureDeviceCreated env).2.2
          ++ (if (d.ensureDeviceCreated env).1
              then [RemoteCall.setProperty "Blocked" (.vBool b)] else [])
      ∧ (d.setAlias env a).2
        = (d.ensureDeviceCreated env).2.2
          ++ (if (d.ensureDeviceCreated env).1
              then [RemoteCall.setProperty "Alias" (.vString a)] else []))
    ∧ ((d.propertyChanged "Trusted" w).1.m_trusted = w.toBool
      ∧ (d.propertyChanged "Blocked" w).1.m_blocked = w.toBool
      ∧ (d.propertyChanged "Alias" w).1.m_alias = w.toQString) := by
  refine ⟨⟨?_, ?_, ?_⟩, ⟨?_, ?_, ?_⟩, ⟨?_, ?_, ?_⟩⟩ <;>
    [skip; skip; skip; skip; skip; skip;
     simp [Device.propertyChanged]; simp [Device.propertyChanged];
     simp [Device.propertyChanged]] <;>
    cases hB : (d.ensureDeviceCreated env).1 <;>
    simp [Device.setTrusted, Device.setBlocked, Device.setAlias, hB,
      ensure_cachedProps]

/-- C8: on a fresh Device, when the remote device object can be neither
found nor created, each lazy accessor attempts the fetch (the two creation
calls appear), gets nothing, returns the constructor defaults (false for
connected / trusted / blocked, the empty UUID list) and leaves the Device
unchanged — so m_propertiesFetched is still false and the next call
attempts the fetch again. -/
theorem c8_failed_fetch_retries (env : Env)
    (addr al : String) (dc : Nat) (ic : String) (lp : Bool) (nm : String)
    (p : Bool) (ad : Nat)
    (hF : env.findDevicePath = "") (hC : env.createDevicePath = "") :
    (Device.init addr al dc ic lp nm p ad).isConnected env
      = (false, Device.init addr al dc ic lp nm p ad,
         [.findDevice addr, .createDevice addr])
    ∧ (Device.init addr al dc ic lp nm p ad).isTrusted env
      = (false, Device.init addr al dc ic lp nm p ad,
         [.findDevice addr, .createDevice addr])
    ∧ (Device.init addr al dc ic lp nm p ad).isBlocked env
      = (false, Device.init addr al dc ic lp nm p ad,
         [.findDevice addr, .createDevice addr])
    ∧ (Device.init addr al dc ic lp nm p ad).UUIDs env
      = ([], Device.init addr al dc ic lp nm p ad,
         [.findDevice addr, .createDevice addr])
    ∧ (Device.init addr al dc ic lp nm p ad).m_propertiesFetched = false := by
  have hE := ensure_none_fail env (Device.init addr al dc ic lp nm p ad) rfl hF hC
  have hAddr : (Device.init addr al dc ic lp nm p ad).m_address = addr := rfl
  have hP : (Device.init addr al dc ic lp nm p ad).m_propertiesFetched = false := rfl
  have hConn : (Device.init addr al dc ic lp nm p ad).m_connected = false := rfl
  have hTru : (Device.init addr al dc ic lp nm p ad).m_trusted = false := rfl
  have hBlo : (Device.init addr al dc ic lp nm p ad).m_blocked = false := rfl
  have hUU : (Device.init addr al dc ic lp nm p ad).m_UUIDs = [] := rfl
  rw [hAddr] at hE
  refine ⟨?_, ?_, ?_, ?_, rfl⟩ <;>
    simp [Device.isConnected, Device.isTrusted, Device.isBlocked, Device.UUIDs,
      Device.fetchProperties, hE, hP, hConn, hTru, hBlo, hUU]

/-- C8 witness: the failing daemon on the concrete fresh device. -/
theorem c8_failed_fetch_retries_witness :
    (Device.init "AA:BB:CC:DD:EE:FF" "MyPhone" 1048 "phone" false "Phone" false 0).isConnected
        failEnv
      = (false,
         Device.init "AA:BB:CC:DD:EE:FF" "MyPhone" 1048 "phone" false "Phone" false 0,
         [.findDevice "AA:BB:CC:DD:EE:FF", .createDevice "AA:BB:CC:DD:EE:FF"])
    ∧ (Device.init "AA:BB:CC:DD:EE:FF" "MyPhone" 1048 "phone" false "Phone" false 0).m_propertiesFetched
      = false := by
  have h := c8_failed_fetch_retries failEnv "AA:BB:CC:DD:EE:FF" "MyPhone" 1048
    "phone" false "Phone" false 0 rfl rfl
  exact ⟨h.1, h.2.2.2.2⟩

/-- C9: while the interface pointer is null, cancelDiscovery and
disconnect are complete no-ops — no remote call, no state change — whereas
discoverServices and setTrusted start by trying to create the interface
(their traces contain the findDevice call). -/
theorem c9_no_interface_noops (env : Env) (d : Device)
    (pattern : String) (v : Bool)
    (hN : d.m_bluezDeviceInterface = none) :
    d.cancelDiscovery = (d, [])
    ∧ d.disconnectDevice = (d, [])
    ∧ RemoteCall.findDevice d.m_address ∈ (d.discoverServices env pattern).2.2
    ∧ RemoteCall.findDevice d.m_address ∈ (d.setTrusted env v).2 := by
  have hmem := ensure_none_finds env d hN
  refine ⟨?_, ?_, ?_, ?_⟩
  · simp [Device.cancelDiscovery, hN]
  · simp [Device.disconnectDevice, hN]
  · cases hB : (d.ensureDeviceCreated env).1 <;>
      simp [Device.discoverServices, hB, hmem]
  · cases hB : (d.ensureDeviceCreated env).1 <;>
      simp [Device.setTrusted, hB, hmem]

/-- C9 witness: the fresh sample device, on which the interface has not
been created. -/
theorem c9_no_interface_noops_witness :
    sampleDevice.cancelDiscovery = (sampleDevice, [])
    ∧ sampleDevice.disconnectDevice = (sampleDevice, [])
    ∧ RemoteCall.findDevice sampleDevice.m_address
        ∈ (sampleDevice.discoverServices sampleEnv "x").2.2
    ∧ RemoteCall.findDevice sampleDevice.m_address
        ∈ (sampleDevice.setTrusted sampleEnv true).2 :=
  c9_no_interface_noops sampleEnv sampleDevice "x" true rfl

end BlueDevil
